import Mathlib

/-!
# Formal model of the flood-monitor bridge (`src/main.py`, `src/image_poller.py`)

Shallow embedding of the telemetry bridge: scalar values of source records,
the record normalizer `clean_sensor_data` with its field-extraction and
parsing helpers, the cursor recovery resolver, one iteration of the
telemetry polling loop, and one iteration of the image-poller loop.

Python `None` is `Value.none`; numbers are `Int`/`Rat` (Python floats are
modelled as exact rationals); fallible operations return `Option`; the
ambient clock (`time.time()` / `datetime.now()`) is passed explicitly as a
`Rat` parameter so that clock dependence is visible in the model.
-/

/-- A Python scalar value as it appears in a source record: `None`, an
`int`, a `float` (modelled as an exact rational), or a `str`. -/
inductive Value
  | none
  | int (n : Int)
  | float (q : Rat)
  | str (s : String)
deriving DecidableEq, Repr

/-- A Firebase record: a mapping of field name to scalar value
(association list; keys are unique in real data). -/
abbrev Record := List (String × Value)

/-- A raw datum fetched from the source: either a mapping (a proper record)
or a bare scalar (structurally invalid for normalization). -/
inductive RawData
  | map (r : Record)
  | scalar (v : Value)
deriving DecidableEq, Repr

/-- `dict` key lookup distinguishing "absent" from "present". -/
def lookupVal (r : Record) (k : String) : Option Value :=
  (r.find? (fun p => p.1 == k)).map Prod.snd

/-- Python `data.get(k)`: the stored value, or `None` when the key is absent. -/
def pyGet (r : Record) (k : String) : Value :=
  (lookupVal r k).getD Value.none

/-- ASCII whitespace for Python `str.strip()`. -/
def isPySpace (c : Char) : Bool :=
  c == ' ' || c == '\t' || c == '\n' || c == '\r' || c == '\x0b' || c == '\x0c'

/-- Python `str.strip()` on a character list. -/
def trimChars (cs : List Char) : List Char :=
  ((cs.dropWhile isPySpace).reverse.dropWhile isPySpace).reverse

/-- Python `c in s` for a single character. -/
def strContainsChar (s : String) (c : Char) : Bool := s.toList.contains c

/-- Split a character list at every occurrence of a separator character. -/
def splitOnCharAux (c : Char) : List Char → List Char → List (List Char)
  | [], acc => [acc.reverse]
  | x :: xs, acc =>
    if x == c then acc.reverse :: splitOnCharAux c xs []
    else splitOnCharAux c xs (x :: acc)

/-- Python `s.split(c)` for a one-character separator
(`"".split(c) = [""]`, `"/a/b".split("/") = ["", "a", "b"]`). -/
def splitOnChar (c : Char) (s : String) : List String :=
  (splitOnCharAux c s.toList []).map List.asString

/-- `_DISTANCE_FALLBACK_FIELDS` from `src/main.py`. -/
def _DISTANCE_FALLBACK_FIELDS : List String :=
  ["dist_cm", "distance_cm", "ultrasound", "ultrasound_cm",
   "level", "level_cm", "distance", "water_level",
   "distance_from_sensor"]

/-- `_BATTERY_FALLBACK_FIELDS` from `src/main.py`. -/
def _BATTERY_FALLBACK_FIELDS : List String :=
  ["bat_volt", "battery_voltage", "battery", "voltage"]

/-- `_SOLAR_FALLBACK_FIELDS` from `src/main.py`. -/
def _SOLAR_FALLBACK_FIELDS : List String :=
  ["solar_volt", "solar_voltage", "solar"]

/-- Python truthiness of an optional string (`if field_name:`):
false for `None` and for the empty string. -/
def truthyStr : Option String → Bool
  | Option.none => false
  | Option.some s => !(s == "")

/-- The fallback loop of `_get_field`: walk the fallback names in order and
return the first value that is not `None`; `None` when the chain is exhausted. -/
def fallbackChain (data : Record) : List String → Value
  | [] => Value.none
  | fb :: rest =>
    if pyGet data fb = Value.none then fallbackChain data rest else pyGet data fb

/-- `_get_field(data, field_name, fallbacks)` from `src/main.py`: when an
explicit field name is configured (truthy), return `data.get(field_name)`
unconditionally; otherwise walk the fallback chain. -/
def _get_field (data : Record) (field_name : Option String) (fallbacks : List String) : Value :=
  if truthyStr field_name then pyGet data (field_name.getD "") else fallbackChain data fallbacks

/-- Numeric value of a decimal digit character. -/
def digitVal (c : Char) : Nat := c.toNat - 48

/-- Value of a list of decimal digit characters, most significant first
(Python `int("0231") = 231`). -/
def digitsToNat (cs : List Char) : Nat :=
  cs.foldl (fun a c => a * 10 + digitVal c) 0

/-- First maximal run of decimal digits in a character list
(the match of `re.search(r"\d+", s)`). -/
def firstDigitRun : List Char → Option (List Char)
  | [] => Option.none
  | c :: rest =>
    if c.isDigit then Option.some (c :: rest.takeWhile Char.isDigit)
    else firstDigitRun rest

/-- `int(re.search(r"\d+", s).group())` with 0 when there is no digit. -/
def extractDigits (s : String) : Int :=
  match firstDigitRun s.toList with
  | Option.some run => (digitsToNat run : Int)
  | Option.none => 0

/-- Python `int(...)` applied to an exact rational: truncation toward zero. -/
def truncRat (q : Rat) : Int := Int.tdiv q.num q.den

/-- Sign parsing for Python `float(...)` strings: `(isNegative, rest)`. -/
def splitSign : List Char → Bool × List Char
  | '-' :: rest => (true, rest)
  | '+' :: rest => (false, rest)
  | cs => (false, cs)

/-- Exponent suffix of a Python float literal (after `e`/`E`):
optional sign then a nonempty digit run ending the string. -/
def applyExp (base : Rat) (r : List Char) : Option Rat :=
  let p := splitSign r
  let ed := p.2.takeWhile Char.isDigit
  let rest := p.2.dropWhile Char.isDigit
  if ed.isEmpty || !rest.isEmpty then Option.none
  else
    let e := digitsToNat ed
    Option.some (if p.1 then base / 10 ^ e else base * 10 ^ e)

/-- Python `float(s)` on a trimmed character list: optional sign, digits with
optional fraction, optional exponent.  (`inf`/`nan` literals, underscores and
non-ASCII digits are outside the model.) -/
def parseFloatChars (cs : List Char) : Option Rat :=
  let p := splitSign cs
  let ip := p.2.takeWhile Char.isDigit
  let rest1 := p.2.dropWhile Char.isDigit
  let fr : List Char × List Char :=
    match rest1 with
    | '.' :: r => (r.takeWhile Char.isDigit, r.dropWhile Char.isDigit)
    | _ => ([], rest1)
  let hadDot : Bool := match rest1 with
    | '.' :: _ => true
    | _ => false
  if ip.isEmpty && (!hadDot || fr.1.isEmpty) then Option.none
  else
    let base : Rat := (digitsToNat ip : Rat) + (digitsToNat fr.1 : Rat) / (10 : Rat) ^ fr.1.length
    let withExp : Option Rat :=
      match fr.2 with
      | [] => Option.some base
      | 'e' :: r => applyExp base r
      | 'E' :: r => applyExp base r
      | _ => Option.none
    withExp.map (fun q => if p.1 then -q else q)

/-- Python `float(s)` on a string (leading/trailing whitespace stripped). -/
def parseFloatStr (s : String) : Option Rat :=
  parseFloatChars (trimChars s.toList)

/-- Python `str(...)` of a scalar value (only the `str` case is ever fed to a
parser that can succeed; numeric renderings only need to fail ISO parsing). -/
def pyStr : Value → String
  | Value.str s => s
  | Value.int n => toString n
  | Value.float q => toString q
  | Value.none => "None"

/-- Python `float(value)`: `int`/`float` convert exactly, `str` is parsed,
`None` raises (so: no result). -/
def pyFloat : Value → Option Rat
  | Value.none => Option.none
  | Value.int n => Option.some (n : Rat)
  | Value.float q => Option.some q
  | Value.str s => parseFloatStr s

/-- `_parse_distance(raw_dist, encoding)` from `src/main.py`.
`"numeric"`: `int(float(raw))` with 0 on failure; `"string"`: numeric values
are cast directly, other values get first-digit-run extraction from their
string form; any other encoding (the `"auto"` path) dispatches on the runtime
type; `None` is 0. -/
def _parse_distance (raw_dist : Value) (encoding : String) : Int :=
  match raw_dist with
  | Value.none => 0
  | raw =>
    if encoding = "numeric" then
      match pyFloat raw with
      | Option.some q => truncRat q
      | Option.none => 0
    else if encoding = "string" then
      match raw with
      | Value.int n => n
      | Value.float q => truncRat q
      | raw2 => extractDigits (pyStr raw2)
    else
      match raw with
      | Value.int n => n
      | Value.float q => truncRat q
      | Value.str s => extractDigits s
      | _ => 0

/-- Result of `_parse_timestamp` / `datetime.strptime`: either a UTC instant
obtained from an epoch number (`datetime.fromtimestamp(ts, utc)`), or a civil
date-time built from parsed components (year, month, day, hour, minute,
second, microsecond) with UTC tzinfo. -/
inductive PyDateTime
  | fromEpoch (secs : Rat)
  | civil (y mo d h mi s us : Nat)
deriving DecidableEq, Repr

/-- Exactly four decimal digits (the `%Y` directive of `strptime`). -/
def parseYear4 : List Char → Option (Nat × List Char)
  | a :: b :: c :: d :: rest =>
    if a.isDigit && b.isDigit && c.isDigit && d.isDigit then
      Option.some (((digitVal a * 10 + digitVal b) * 10 + digitVal c) * 10 + digitVal d, rest)
    else Option.none
  | _ => Option.none

/-- A one-or-two digit `strptime` field: the two-digit form is taken when its
value satisfies `valid2`, else a single digit satisfying `valid1`
(mirrors the alternation order of `strptime`'s field regexes). -/
def parseField12 (valid2 valid1 : Nat → Bool) : List Char → Option (Nat × List Char)
  | a :: b :: rest =>
    if a.isDigit && b.isDigit && valid2 (digitVal a * 10 + digitVal b) then
      Option.some (digitVal a * 10 + digitVal b, rest)
    else if a.isDigit && valid1 (digitVal a) then Option.some (digitVal a, b :: rest)
    else Option.none
  | [a] => if a.isDigit && valid1 (digitVal a) then Option.some (digitVal a, []) else Option.none
  | [] => Option.none

/-- Consume one expected literal character. -/
def litChar (c : Char) : List Char → Option (List Char)
  | x :: rest => if x == c then Option.some rest else Option.none
  | [] => Option.none

/-- Gregorian leap-year rule (as `datetime` validates days). -/
def isLeapYear (y : Nat) : Bool :=
  (y % 4 == 0 && y % 100 != 0) || y % 400 == 0

/-- Days in a month, as `datetime` construction validates. -/
def daysInMonth (y m : Nat) : Nat :=
  if m = 2 then (if isLeapYear y then 29 else 28)
  else if m = 4 ∨ m = 6 ∨ m = 9 ∨ m = 11 then 30
  else 31

/-- The ISO branch of `_parse_timestamp`: try the five fixed `strptime`
patterns `%Y-%m-%d %H:%M:%S`, `%Y-%m-%dT%H:%M:%S`, with `.%f`, and
`%Y-%m-%dT%H:%M:%SZ`, combined into one pass (date, a space or `T`
separator, time, then an optional fractional part, or a trailing `Z` only
after a `T`), with `datetime`'s range validation. -/
def parseIso (cs : List Char) : Option PyDateTime := do
  let (y, r) ← parseYear4 cs
  let r ← litChar '-' r
  let (mo, r) ← parseField12 (fun v => decide (1 ≤ v ∧ v ≤ 12)) (fun v => decide (1 ≤ v)) r
  let r ← litChar '-' r
  let (d, r) ← parseField12 (fun v => decide (1 ≤ v ∧ v ≤ 31)) (fun v => decide (1 ≤ v)) r
  let sepR ← (match r with
    | ' ' :: rest => Option.some (' ', rest)
    | 'T' :: rest => Option.some ('T', rest)
    | _ => Option.none)
  let (h, r) ← parseField12 (fun v => decide (v ≤ 23)) (fun _ => true) sepR.2
  let r ← litChar ':' r
  let (mi, r) ← parseField12 (fun v => decide (v ≤ 59)) (fun _ => true) r
  let r ← litChar ':' r
  let (s2, r) ← parseField12 (fun v => decide (v ≤ 61)) (fun _ => true) r
  let us ← (match r with
    | [] => Option.some 0
    | ['Z'] => if sepR.1 == 'T' then Option.some 0 else Option.none
    | '.' :: ds =>
      if 1 ≤ ds.length && ds.length ≤ 6 && ds.all Char.isDigit then
        Option.some (digitsToNat ds * 10 ^ (6 - ds.length))
      else Option.none
    | _ => Option.none)
  if 1 ≤ y && 1 ≤ d && d ≤ daysInMonth y mo && s2 ≤ 59 then
    Option.some (PyDateTime.civil y mo d h mi s2 us)
  else Option.none

/-- The epoch-format adjustment of `_parse_timestamp` (`src/main.py` lines
159-164): `epoch_ms` always divides by 1000, `epoch_auto` divides by 1000
exactly when the value exceeds `1e11`, anything else is used as-is. -/
def epochAdjust (fmt : String) (ts : Rat) : Rat :=
  if fmt = "epoch_ms" then ts / 1000
  else if fmt = "epoch_auto" then (if ts > 100000000000 then ts / 1000 else ts)
  else ts

/-- Range in which `datetime.fromtimestamp(ts, utc)` succeeds
(years 1 through 9999). -/
def fromtimestampOk (ts : Rat) : Bool :=
  decide (-62135596800 ≤ ts ∧ ts < 253402300800)

/-- Range in which `datetime.fromtimestamp(ts, utc)` raises `OverflowError`
(the value does not fit the platform's 64-bit `time_t`), which line 168's
`except (OSError, OverflowError)` catches.  Between this band and the valid
year range, CPython raises `ValueError` instead — NOT caught there. -/
def fromtimestampOverflow (ts : Rat) : Bool :=
  decide (9223372036854775808 ≤ ts ∨ ts < -9223372036854775808)

/-- Outcome of the clock-free part of `_parse_timestamp`: a parsed instant,
a substitute-current-time fallback, or an uncaught `ValueError` that
propagates past `_parse_timestamp` into `clean_sensor_data`'s outer
handler (dropping the record). -/
inductive TsParse
  | ok (dt : PyDateTime)
  | now
  | err
deriving DecidableEq, Repr

/-- True exactly when the parse produced an instant (no fallback, no raise). -/
def TsParse.isOk : TsParse → Bool
  | TsParse.ok _ => true
  | _ => false

/-- The clock-free core of `_parse_timestamp`: `TsParse.ok dt` when the raw
value parses under the given format, `TsParse.now` exactly when the Python
code catches a failure and substitutes the current time, and `TsParse.err`
when `datetime.fromtimestamp` raises `ValueError` (epoch within the int64
band but year outside 1..9999) — which `except (OSError, OverflowError)`
does not catch, so the exception escapes `_parse_timestamp`. -/
def parseTsCore (raw_ts : Value) (fmt : String) : TsParse :=
  match raw_ts with
  | Value.none => TsParse.now
  | raw =>
    if fmt = "iso" then
      match parseIso (trimChars (pyStr raw).toList) with
      | Option.some dt => TsParse.ok dt
      | Option.none => TsParse.now
    else
      match pyFloat raw with
      | Option.none => TsParse.now
      | Option.some ts =>
        let ts2 := epochAdjust fmt ts
        if fromtimestampOk ts2 then TsParse.ok (PyDateTime.fromEpoch ts2)
        else if fromtimestampOverflow ts2 then TsParse.now
        else TsParse.err

/-- `_parse_timestamp(raw_ts, fmt)` from `src/main.py`, with the current UTC
clock passed explicitly: caught failure paths return `now`; the uncaught
`ValueError` band yields no result (the exception propagates to the
caller). -/
def _parse_timestamp (raw_ts : Value) (fmt : String) (now : Rat) : Option PyDateTime :=
  match parseTsCore raw_ts fmt with
  | TsParse.ok dt => Option.some dt
  | TsParse.now => Option.some (PyDateTime.fromEpoch now)
  | TsParse.err => Option.none

/-- Per-sensor configuration as read by `clean_sensor_data` from
`sensor_config.yaml`: the `fields` mapping entries and the two encoding
selectors; an absent entry is `Option.none` (the code applies its `.get`
defaults). -/
structure SensorCfg where
  distField : Option String := Option.none
  batField : Option String := Option.none
  solField : Option String := Option.none
  tsField : Option String := Option.none
  distEncoding : Option String := Option.none
  tsFormat : Option String := Option.none
deriving DecidableEq, Repr

/-- An absent / empty sensor configuration (`sensor_cfg or {}`). -/
def emptyCfg : SensorCfg := {}

/-- `float(raw) if raw is not None else 0.0` — the battery/solar conversion
in `clean_sensor_data`; `Option.none` when `float(...)` raises. -/
def pyFloatOrDefault (v : Value) : Option Rat :=
  match v with
  | Value.none => Option.some 0
  | w => pyFloat w

/-- The InfluxDB point built by `clean_sensor_data`: measurement
`sensor_reading`, a sensor tag, the four fields and a timestamp. -/
structure SensorPoint where
  measurement : String
  sensor_id : String
  dist_cm : Int
  bat_volt : Rat
  solar_volt : Rat
  fb_key : String
  time : PyDateTime
deriving DecidableEq, Repr

/-- `clean_sensor_data(key, data, sensor_cfg)` from `src/main.py`, with the
ambient clock `now` explicit.  A non-mapping datum raises `AttributeError`
at `data.get`, caught by the outer handler (`Option.none`); a failed
`float(...)` on the battery or solar value likewise propagates to the outer
handler and drops the record; so does the `ValueError` that
`datetime.fromtimestamp` raises for an in-int64-band epoch whose year falls
outside 1..9999 (`_parse_timestamp` catches only `OSError`/`OverflowError`). -/
def clean_sensor_data (key : String) (data : RawData) (cfg : Option SensorCfg) (now : Rat) :
    Option SensorPoint :=
  match data with
  | RawData.scalar _ => Option.none
  | RawData.map r =>
    let c := cfg.getD emptyCfg
    let sensor_id :=
      if strContainsChar key '/' then (splitOnChar '/' key).getD 1 "" else "unknown_sensor"
    let ts_field := c.tsField.getD "timestamp"
    let dist_encoding := c.distEncoding.getD "auto"
    let ts_format := c.tsFormat.getD "epoch_auto"
    let raw_dist := _get_field r c.distField _DISTANCE_FALLBACK_FIELDS
    let raw_bat := _get_field r c.batField _BATTERY_FALLBACK_FIELDS
    let raw_sol := _get_field r c.solField _SOLAR_FALLBACK_FIELDS
    let raw_ts := (lookupVal r ts_field).getD (Value.float now)
    match pyFloatOrDefault raw_bat, pyFloatOrDefault raw_sol,
        _parse_timestamp raw_ts ts_format now with
    | Option.some bat, Option.some sol, Option.some dt =>
      Option.some {
        measurement := "sensor_reading"
        sensor_id := sensor_id
        dist_cm := _parse_distance raw_dist dist_encoding
        bat_volt := bat
        solar_volt := sol
        fb_key := (splitOnChar '/' key).getLastD ""
        time := dt }
    | _, _, _ => Option.none

/-- Lexicographic comparison of character lists by code point (the key
ordering of Firebase push keys and of Python string comparison). -/
def charListLe : List Char → List Char → Bool
  | [], _ => true
  | _ :: _, [] => false
  | c :: cs, d :: ds => if c < d then true else if d < c then false else charListLe cs ds

/-- Lexicographic string order by code point. -/
def strLe (a b : String) : Bool := charListLe a.toList b.toList

/-- Insertion into a list sorted by a string key (used to model Firebase's
`order_by_key()` ordering and Python's `sorted`). -/
def insertByKey {α : Type} (key : α → String) (x : α) : List α → List α
  | [] => [x]
  | y :: ys => if strLe (key x) (key y) then x :: y :: ys else y :: insertByKey key x ys

/-- Sort a list by a string key (insertion sort; stable, total). -/
def sortByKey {α : Type} (key : α → String) (l : List α) : List α :=
  l.foldr (insertByKey key) []

/-- Last `n` elements of a list (`limit_to_last(n)` on an ordered query). -/
def takeLast {α : Type} (n : Nat) (l : List α) : List α :=
  l.drop (l.length - n)

/-- The page fetched by one telemetry poll (`src/main.py` lines 403-416):
with a truthy cursor, the records ordered by key starting **at** the cursor
key inclusive, limited to the first 100; otherwise the last 100 records. -/
def fetchPage (source : List (String × RawData)) (cursor : Option String) :
    List (String × RawData) :=
  let sorted := sortByKey Prod.fst source
  match cursor with
  | Option.some k =>
    if k = "" then takeLast 100 sorted
    else (sorted.filter (fun p => strLe k p.1)).take 100
  | Option.none => takeLast 100 sorted

/-- The page's keys in ascending order with the cursor key itself skipped
(`sorted(snapshot.keys())` and the `if key == last_key: continue` test). -/
def pageNewKeys (snapshot : List (String × RawData)) (cursor : Option String) : List String :=
  (sortByKey id (snapshot.map Prod.fst)).filter (fun k => !(cursor == Option.some k))

/-- `snapshot[key]` on the fetched page. -/
def lookupRaw (snapshot : List (String × RawData)) (k : String) : Option RawData :=
  (snapshot.find? (fun p => p.1 == k)).map Prod.snd

/-- Outcome of one per-sensor iteration of the polling loop: the in-memory
cursor after the iteration, the batch of points handed to the sink write (if
one was attempted), whether the write returned success, and whether
`save_state` persisted the cursor map. -/
structure PollResult where
  newCursor : Option String
  points : List SensorPoint
  wroteOk : Bool
  persisted : Bool
deriving DecidableEq, Repr

/-- The batch assembled for one telemetry cycle: every non-cursor key of the
sorted page whose record is a mapping and whose normalization returns a
point (`if pt: points.append(pt)`). -/
def cyclePoints (sensor : String) (snapshot : List (String × RawData))
    (cfg : Option SensorCfg) (cursor : Option String) (now : Rat) : List SensorPoint :=
  (pageNewKeys snapshot cursor).filterMap (fun k =>
    match lookupRaw snapshot k with
    | Option.some (RawData.map r) =>
      clean_sensor_data ("/" ++ sensor ++ "/" ++ k) (RawData.map r) cfg now
    | _ => Option.none)

/-- `new_last_key` after the page walk: starts as the current cursor and is
overwritten by every non-cursor key in ascending order, so it ends as the
last such key (or stays the cursor when there are none). -/
def cycleNewLast (snapshot : List (String × RawData)) (cursor : Option String) :
    Option String :=
  if (pageNewKeys snapshot cursor).isEmpty then cursor
  else (pageNewKeys snapshot cursor).getLast?

/-- The "nothing new" test (`len(snapshot) == 1 and last_key in snapshot`). -/
def onlyCursorInPage (snapshot : List (String × RawData)) (cursor : Option String) : Bool :=
  snapshot.length == 1 &&
    (match cursor with
     | Option.some k => snapshot.any (fun p => p.1 == k)
     | Option.none => false)

/-- One per-sensor iteration of the telemetry polling loop (`src/main.py`
lines 401-449).  `writeOk` models whether `write_api.write` returns or
raises; a raise propagates to the per-sensor handler, so neither the cursor
update nor `save_state` happens.  The cursor is assigned `new_last_key`
(the last non-cursor key of the sorted page) only after a successful write
of a non-empty batch. -/
def pollSensorCycle (sensor : String) (source : List (String × RawData))
    (cfg : Option SensorCfg) (cursor : Option String) (now : Rat) (writeOk : Bool) :
    PollResult :=
  if (fetchPage source cursor).isEmpty then ⟨cursor, [], false, false⟩
  else if onlyCursorInPage (fetchPage source cursor) cursor then ⟨cursor, [], false, false⟩
  else if (cyclePoints sensor (fetchPage source cursor) cfg cursor now).isEmpty then
    ⟨cursor, cyclePoints sensor (fetchPage source cursor) cfg cursor now, false, false⟩
  else if writeOk then
    ⟨cycleNewLast (fetchPage source cursor) cursor,
     cyclePoints sensor (fetchPage source cursor) cfg cursor now, true, true⟩
  else ⟨cursor, cyclePoints sensor (fetchPage source cursor) cfg cursor now, false, false⟩

/-- The fresh-start tier of cursor recovery (`src/main.py` lines 381-393):
`order_by_key().limit_to_last(1)` — the lexicographically greatest source
key, or null when the sensor has no records. -/
def freshStartCursor (srcKeys : List String) : Option String :=
  (sortByKey id srcKeys).getLast?

/-- Startup cursor resolution for one sensor (`src/main.py` lines 367-393).
`saved` is the durable local file's entry (outer `Option.none` = no entry),
`influx` the sink query result (`Option.none` covers both "no data" and a
query error), `srcKeys` the sensor's source keys.  The local file entry is
adopted verbatim; the sink value is adopted when truthy; else fresh start. -/
def resolveCursor (saved : Option (Option String)) (influx : Option String)
    (srcKeys : List String) : Option String :=
  match saved with
  | Option.some v => v
  | Option.none =>
    match influx with
    | Option.some k => if k = "" then freshStartCursor srcKeys else Option.some k
    | Option.none => freshStartCursor srcKeys

/-- `fnmatch`-style glob matching over characters, structured on a fuel
argument (every recursive call shrinks pattern-length + string-length, so
the fuel supplied by `globMatch` is never exhausted): `*` matches any run,
`?` any single character, other characters match literally (character
classes are not used by this repository's patterns and are not modelled). -/
def globMatchFuel : Nat → List Char → List Char → Bool
  | 0, _, _ => false
  | Nat.succ fuel, pat, str =>
    match pat, str with
    | [], [] => true
    | [], _ :: _ => false
    | '*' :: ps, [] => globMatchFuel fuel ps []
    | '*' :: ps, c :: ss => globMatchFuel fuel ps (c :: ss) || globMatchFuel fuel ('*' :: ps) ss
    | '?' :: ps, _ :: ss => globMatchFuel fuel ps ss
    | '?' :: _, [] => false
    | p :: ps, c :: ss => p == c && globMatchFuel fuel ps ss
    | _ :: _, [] => false

/-- `fnmatch.fnmatch`-style glob matching. -/
def globMatch (pat str : List Char) : Bool :=
  globMatchFuel (pat.length + str.length + 1) pat str

/-- Python `str.lower()` (ASCII case folding). -/
def lowerStr (s : String) : String := List.asString (s.toList.map Char.toLower)

/-- Python `s.endswith("/")`. -/
def endsWithSlash (s : String) : Bool :=
  match s.toList.getLast? with
  | Option.some c => c == '/'
  | Option.none => false

/-- `os.path.basename`: the part after the last `/`. -/
def basenameOf (s : String) : String := (splitOnChar '/' s).getLastD s

/-- A storage blob as seen by `_poll_once`: its full name, whether
`make_public()` succeeds for it, its public URL, and the timestamp
`_get_blob_timestamp` derives for it (the regex/metadata derivation is
orthogonal to the seen-set claims and is abstracted into this field). -/
structure Blob where
  name : String
  publishOk : Bool
  url : String
  ts : Rat
deriving DecidableEq, Repr

/-- The `sensor_image` pointer record written by the image poller. -/
structure ImgPoint where
  sensor_id : String
  view : String
  image_url : String
  filename : String
  time : Rat
deriving DecidableEq, Repr

/-- An element of the Python seen-set `_seen_blobs[track_key]`.  The set is
heterogeneous: blob **names** are added after publishing, but the
failed-write cleanup calls `discard(pt)` with the InfluxDB **point
objects**, so both kinds can be offered to the set. -/
inductive SeenEntry
  | name (s : String)
  | point (p : ImgPoint)
deriving DecidableEq, Repr

/-- `set.add` (no duplicates). -/
def insertSeen (x : SeenEntry) (l : List SeenEntry) : List SeenEntry :=
  if l.contains x then l else l ++ [x]

/-- `set.discard` (removing a non-member is a no-op). -/
def discardSeen (x : SeenEntry) (l : List SeenEntry) : List SeenEntry :=
  l.filter (fun y => !(y == x))

/-- One (sensor, view) iteration of `_poll_once` (`src/image_poller.py`
lines 226-288) over an already-listed blob sequence: skip directory
markers, skip names already in the seen-set, apply the case-insensitive
filename glob, skip blobs whose publish raises, build a pointer record and
add the blob **name** to the seen-set; then write the batch — on write
failure (`writeOk = false`) discard each **point object** from the
seen-set, exactly as the code does.  Returns (seen-set after, batch,
whether the write succeeded). -/
def pollViewOnce (sensor view pattern : String) (blobs : List Blob)
    (seen : List SeenEntry) (writeOk : Bool) :
    List SeenEntry × List ImgPoint × Bool :=
  let step := fun (acc : List SeenEntry × List ImgPoint) (b : Blob) =>
    if endsWithSlash b.name then acc
    else if acc.1.contains (SeenEntry.name b.name) then acc
    else if !(globMatch (lowerStr pattern).toList (lowerStr (basenameOf b.name)).toList) then acc
    else if !b.publishOk then acc
    else
      let p : ImgPoint :=
        { sensor_id := sensor, view := view, image_url := b.url,
          filename := basenameOf b.name, time := b.ts }
      (insertSeen (SeenEntry.name b.name) acc.1, acc.2 ++ [p])
  let sp := blobs.foldl step (seen, [])
  if sp.2.isEmpty then (sp.1, sp.2, false)
  else if writeOk then (sp.1, sp.2, true)
  else (sp.2.foldl (fun s p => discardSeen (SeenEntry.point p) s) sp.1, sp.2, false)

/-- Field resolution as claim C7 states it (for comparison with
`_get_field`): the configured name's value only when the record holds a
non-null value under it, otherwise the first non-null fallback value. -/
def getFieldSpecC7 (data : Record) (field_name : Option String) (fallbacks : List String) :
    Value :=
  match field_name with
  | Option.some fn =>
    if fn ≠ "" ∧ pyGet data fn ≠ Value.none then pyGet data fn
    else fallbackChain data fallbacks
  | Option.none => fallbackChain data fallbacks

/-- A value on which Python `float(...)` raises: non-null but not
convertible (in the record data, a non-numeric string). -/
def floatFailure (v : Value) : Prop := v ≠ Value.none ∧ pyFloat v = Option.none

/-- Values of Python numeric runtime type (`int` or `float`). -/
def isNumericValue : Value → Prop
  | Value.int _ => True
  | Value.float _ => True
  | _ => False

/-! ## Helper lemmas -/

theorem pyFloatOrDefault_eq_none_iff (v : Value) :
    pyFloatOrDefault v = Option.none ↔ floatFailure v := by
  cases v <;> simp [pyFloatOrDefault, pyFloat, floatFailure]

theorem parse_timestamp_eq_none_iff (raw : Value) (fmt : String) (now : Rat) :
    _parse_timestamp raw fmt now = Option.none ↔ parseTsCore raw fmt = TsParse.err := by
  cases h : parseTsCore raw fmt <;> simp [_parse_timestamp, h]

theorem fallbackChain_eq_find? (data : Record) :
    ∀ fbs : List String, fallbackChain data fbs =
      (match fbs.find? (fun fb => !(pyGet data fb == Value.none)) with
       | Option.some fb => pyGet data fb
       | Option.none => Value.none) := by
  intro fbs
  induction fbs with
  | nil => rfl
  | cons fb rest ih =>
    by_cases h : pyGet data fb = Value.none
    · have hb : (pyGet data fb == Value.none) = true := beq_iff_eq.mpr h
      simp [fallbackChain, List.find?, h, hb, ih]
    · have hb : (pyGet data fb == Value.none) = false := beq_eq_false_iff_ne.mpr h
      simp [fallbackChain, List.find?, h, hb]

theorem truncRat_intCast (n : Int) : truncRat (n : Rat) = n := by
  simp [truncRat]

theorem extractDigits_nonneg (s : String) : 0 ≤ extractDigits s := by
  unfold extractDigits
  cases firstDigitRun s.toList with
  | none => exact le_refl 0
  | some run => exact Int.natCast_nonneg _

theorem firstDigitRun_eq_none (cs : List Char) (h : cs.all (fun c => !c.isDigit) = true) :
    firstDigitRun cs = Option.none := by
  induction cs with
  | nil => rfl
  | cons c rest ih =>
    simp only [List.all_cons, Bool.and_eq_true, Bool.not_eq_true'] at h
    simp [firstDigitRun, h.1, ih h.2]

theorem extractDigits_eq_zero (s : String) (h : (s.toList.all fun c => !c.isDigit) = true) :
    extractDigits s = 0 := by
  unfold extractDigits
  rw [firstDigitRun_eq_none _ h]

/-! ## Claim theorems -/

/-- C1: at-least-once delivery in the telemetry sync loop.  When the batch
write for the page fails (raises), the per-sensor iteration leaves the
in-memory cursor unchanged, does not persist the cursor map, and —
the source being unchanged — the next cycle fetches exactly the same page,
so the same source records are seen again. -/
theorem c1_write_failure_preserves_cursor :
    ∀ (sensor : String) (source : List (String × RawData)) (cfg : Option SensorCfg)
      (cursor : Option String) (now : Rat),
    (pollSensorCycle sensor source cfg cursor now false).newCursor = cursor ∧
    (pollSensorCycle sensor source cfg cursor now false).persisted = false ∧
    fetchPage source (pollSensorCycle sensor source cfg cursor now false).newCursor
      = fetchPage source cursor := by
  intro sensor source cfg cursor now
  have h : (pollSensorCycle sensor source cfg cursor now false).newCursor = cursor ∧
      (pollSensorCycle sensor source cfg cursor now false).persisted = false := by
    unfold pollSensorCycle
    split
    · exact ⟨rfl, rfl⟩
    · split
      · exact ⟨rfl, rfl⟩
      · split
        · exact ⟨rfl, rfl⟩
        · simp
  exact ⟨h.1, h.2, by rw [h.1]⟩

/-- C2 counterexample: a fetched page with a key after the cursor whose only
new record fails normalization (battery value `"x"` makes `float` raise, so
`clean_sensor_data` returns nothing).  The batch is empty, no write happens,
and the cursor stays at `"a"` instead of advancing to `"b"` — refuting the
claim that the cursor advances even when normalization fails for all of the
page's records. -/
theorem c2_poison_page_stalls_cursor :
    (pollSensorCycle "s"
      [("a", RawData.map [("bat_volt", Value.str "x")]),
       ("b", RawData.map [("bat_volt", Value.str "x")])]
      Option.none (Option.some "a") 0 true).newCursor = Option.some "a" ∧
    pageNewKeys
      (fetchPage [("a", RawData.map [("bat_volt", Value.str "x")]),
                  ("b", RawData.map [("bat_volt", Value.str "x")])] (Option.some "a"))
      (Option.some "a") = ["b"] := by decide

/-- C2 (amended): when the write succeeds and the assembled batch is
non-empty — i.e. at least one non-cursor record of the page normalized to a
point — the cursor advances to the last non-cursor key of the sorted page,
past any interior records whose normalization failed. -/
theorem c2_cursor_advances_on_successful_batch :
    ∀ (sensor : String) (source : List (String × RawData)) (cfg : Option SensorCfg)
      (cursor : Option String) (now : Rat),
    (pollSensorCycle sensor source cfg cursor now true).points ≠ [] →
    (pollSensorCycle sensor source cfg cursor now true).newCursor
      = (pageNewKeys (fetchPage source cursor) cursor).getLast? := by
  intro sensor source cfg cursor now hne
  by_cases h1 : (fetchPage source cursor).isEmpty = true
  · simp [pollSensorCycle, h1] at hne
  by_cases h2 : onlyCursorInPage (fetchPage source cursor) cursor = true
  · simp [pollSensorCycle, h1, h2] at hne
  by_cases h3 : (cyclePoints sensor (fetchPage source cursor) cfg cursor now).isEmpty = true
  · simp [pollSensorCycle, h1, h2, h3] at hne
    exact absurd (List.isEmpty_iff.mp h3) hne
  · have hkeep : (pageNewKeys (fetchPage source cursor) cursor).isEmpty = false := by
      rw [Bool.eq_false_iff]
      intro hk
      apply h3
      rw [List.isEmpty_iff] at hk ⊢
      simp [cyclePoints, hk]
    simp [pollSensorCycle, h1, h2, h3, cycleNewLast, hkeep]

/-- C2 witness: the spec's end-to-end scenario — cursor `-Ka001`, page
`[-Ka001, -Ka002, -Ka003]` with `-Ka002` missing the distance field and
`-Ka003` valid; the batch is non-empty and the cursor advances to the last
new key of the page. -/
theorem c2_cursor_advances_witness :
    (pollSensorCycle "flood1"
      [("-Ka001", RawData.map []),
       ("-Ka002", RawData.map [("bat_volt", Value.int 4), ("timestamp", Value.int 1700000000)]),
       ("-Ka003", RawData.map [("distance", Value.int 123), ("timestamp", Value.int 1700000001)])]
      Option.none (Option.some "-Ka001") 0 true).points ≠ [] ∧
    (pollSensorCycle "flood1"
      [("-Ka001", RawData.map []),
       ("-Ka002", RawData.map [("bat_volt", Value.int 4), ("timestamp", Value.int 1700000000)]),
       ("-Ka003", RawData.map [("distance", Value.int 123), ("timestamp", Value.int 1700000001)])]
      Option.none (Option.some "-Ka001") 0 true).newCursor
      = (pageNewKeys
          (fetchPage
            [("-Ka001", RawData.map []),
             ("-Ka002", RawData.map [("bat_volt", Value.int 4), ("timestamp", Value.int 1700000000)]),
             ("-Ka003", RawData.map [("distance", Value.int 123), ("timestamp", Value.int 1700000001)])]
            (Option.some "-Ka001")) (Option.some "-Ka001")).getLast? :=
  ⟨by decide,
   c2_cursor_advances_on_successful_batch "flood1"
     [("-Ka001", RawData.map []),
      ("-Ka002", RawData.map [("bat_volt", Value.int 4), ("timestamp", Value.int 1700000000)]),
      ("-Ka003", RawData.map [("distance", Value.int 123), ("timestamp", Value.int 1700000001)])]
     Option.none (Option.some "-Ka001") 0 (by decide)⟩

/-- C3: cursor recovery precedence.  A local cursor-file entry is adopted
verbatim whatever the sink holds; with no local entry a truthy sink value is
adopted; with neither, the cursor is seeded from the newest source key, and
stays null when the source is empty. -/
theorem c3_recovery_precedence :
    (∀ (v influx : Option String) (src : List String),
      resolveCursor (Option.some v) influx src = v) ∧
    (∀ (k : String) (src : List String), k ≠ "" →
      resolveCursor Option.none (Option.some k) src = Option.some k) ∧
    (∀ src : List String,
      resolveCursor Option.none Option.none src = (sortByKey id src).getLast?) ∧
    resolveCursor Option.none Option.none [] = Option.none := by
  refine ⟨fun v influx src => rfl, fun k src hk => ?_, fun src => rfl, rfl⟩
  simp [resolveCursor, hk]

/-- C3 witness: a local entry `"A"` beats a differing sink value `"B"`, and
with no local entry the sink value `"B"` is adopted. -/
theorem c3_recovery_precedence_witness :
    resolveCursor (Option.some (Option.some "A")) (Option.some "B") ["C"] = Option.some "A" ∧
    resolveCursor Option.none (Option.some "B") [] = Option.some "B" :=
  ⟨c3_recovery_precedence.1 (Option.some "A") (Option.some "B") ["C"],
   c3_recovery_precedence.2.1 "B" [] (by decide)⟩

/-- C4 counterexample: a mapping record whose battery value is the
non-numeric string `"abc"` is dropped (`float` raises and the outer handler
returns nothing) instead of getting the documented 0.0 default — refuting
the claim that a failure is returned only for non-mapping input. -/
theorem c4_malformed_battery_drops_record :
    clean_sensor_data "/flood1/-Ka002"
      (RawData.map [("bat_volt", Value.str "abc"), ("timestamp", Value.int 1700000000)])
      Option.none 0 = Option.none := by decide

/-- C4 (amended): the normalizer never raises past its boundary only in the
sense that the loop sees a dropped record, and it returns a failure exactly
for: non-mapping input; a mapping whose resolved battery or solar value is
non-null and fails float conversion; or a mapping whose timestamp value
parses to an epoch inside the int64 band but outside `datetime`'s year
range 1..9999, where `fromtimestamp` raises `ValueError` uncaught by
`except (OSError, OverflowError)`.  Every other mapping yields a point (all
fields present, with defaults for missing values).  The last conjunct shows
the third drop cause concretely: a record whose timestamp is `-7e10`
seconds (year before 1) is dropped. -/
theorem c4_failure_characterization :
    ∀ (key : String) (r : Record) (cfg : Option SensorCfg) (now : Rat),
    (clean_sensor_data key (RawData.map r) cfg now = Option.none ↔
      (floatFailure (_get_field r (cfg.getD emptyCfg).batField _BATTERY_FALLBACK_FIELDS) ∨
       floatFailure (_get_field r (cfg.getD emptyCfg).solField _SOLAR_FALLBACK_FIELDS) ∨
       parseTsCore
         ((lookupVal r ((cfg.getD emptyCfg).tsField.getD "timestamp")).getD (Value.float now))
         ((cfg.getD emptyCfg).tsFormat.getD "epoch_auto") = TsParse.err)) ∧
    (∀ v : Value, clean_sensor_data key (RawData.scalar v) cfg now = Option.none) ∧
    clean_sensor_data "/s/k" (RawData.map [("timestamp", Value.int (-70000000000))])
      Option.none 0 = Option.none := by
  intro key r cfg now
  refine ⟨?_, fun v => rfl, by decide⟩
  rw [← pyFloatOrDefault_eq_none_iff, ← pyFloatOrDefault_eq_none_iff,
    ← parse_timestamp_eq_none_iff _ _ now]
  cases hb : pyFloatOrDefault
      (_get_field r (cfg.getD emptyCfg).batField _BATTERY_FALLBACK_FIELDS) with
  | none => simp [clean_sensor_data, hb]
  | some b =>
    cases hs : pyFloatOrDefault
        (_get_field r (cfg.getD emptyCfg).solField _SOLAR_FALLBACK_FIELDS) with
    | none => simp [clean_sensor_data, hb, hs]
    | some s2 =>
      cases ht : _parse_timestamp
          ((lookupVal r ((cfg.getD emptyCfg).tsField.getD "timestamp")).getD (Value.float now))
          ((cfg.getD emptyCfg).tsFormat.getD "epoch_auto") now with
      | none => simp [clean_sensor_data, hb, hs, ht]
      | some dt => simp [clean_sensor_data, hb, hs, ht]

/-- C5: the seen-set is NOT cleared after a failed pointer write.  One new
artifact is published (batch of length 1), the write fails, yet the
seen-set still holds the artifact name — the cleanup calls `discard` with
the Point objects, not the names — so the next cycle produces no points and
the artifact never reappears in the candidate set, contrary to the code's
own comment and the specification. -/
theorem c5_failed_write_leaves_seen_set :
    ((pollViewOnce "s1" "front" "*.jpg"
        [{ name := "cam/a.jpg", publishOk := true, url := "u", ts := 0 }] [] false).2.1).length
      = 1 ∧
    (pollViewOnce "s1" "front" "*.jpg"
        [{ name := "cam/a.jpg", publishOk := true, url := "u", ts := 0 }] [] false).1
      = [SeenEntry.name "cam/a.jpg"] ∧
    (pollViewOnce "s1" "front" "*.jpg"
        [{ name := "cam/a.jpg", publishOk := true, url := "u", ts := 0 }]
        (pollViewOnce "s1" "front" "*.jpg"
          [{ name := "cam/a.jpg", publishOk := true, url := "u", ts := 0 }] [] false).1 true).2.1
      = [] := by decide

/-- C6 counterexample: normalizing a record with no timestamp field at two
different clock instants yields different points (the timestamp defaults to
the current time), refuting bit-identical idempotence / clock independence. -/
theorem c6_clock_dependence :
    clean_sensor_data "/flood1/-Ka002" (RawData.map []) Option.none 0 ≠
    clean_sensor_data "/flood1/-Ka002" (RawData.map []) Option.none 1 := by decide

/-- C6 (amended): normalization is a pure function of (key, record, config,
clock), and whenever the configured timestamp field is present in the
record and its value parses under the configured format (so no
current-time fallback is taken), the result is independent of the clock —
two calls agree for any two clock values. -/
theorem c6_deterministic_when_timestamp_parses :
    ∀ (key : String) (r : Record) (cfg : Option SensorCfg) (n1 n2 : Rat) (v : Value),
    lookupVal r ((cfg.getD emptyCfg).tsField.getD "timestamp") = Option.some v →
    (parseTsCore v ((cfg.getD emptyCfg).tsFormat.getD "epoch_auto")).isOk = true →
    clean_sensor_data key (RawData.map r) cfg n1
      = clean_sensor_data key (RawData.map r) cfg n2 := by
  intro key r cfg n1 n2 v hv hok
  cases hp : parseTsCore v ((cfg.getD emptyCfg).tsFormat.getD "epoch_auto") with
  | ok d => simp only [clean_sensor_data, hv, Option.getD_some, _parse_timestamp, hp]
  | now => rw [hp] at hok; simp [TsParse.isOk] at hok
  | err => rw [hp] at hok; simp [TsParse.isOk] at hok

/-- C6 witness: a record with an epoch timestamp normalizes identically at
clock values 0 and 1. -/
theorem c6_deterministic_witness :
    clean_sensor_data "/s/k" (RawData.map [("timestamp", Value.int 1700000000)]) Option.none 0 =
    clean_sensor_data "/s/k" (RawData.map [("timestamp", Value.int 1700000000)]) Option.none 1 :=
  c6_deterministic_when_timestamp_parses "/s/k" [("timestamp", Value.int 1700000000)]
    Option.none 0 1 (Value.int 1700000000) (by decide) (by decide)

/-- C7 counterexample: with a configured distance field name `"d"` that is
absent from the record, `_get_field` returns null (so the distance defaults
to 0) and never consults the fallback chain, while the claimed resolution
would find 42 under the fallback name `dist_cm`. -/
theorem c7_configured_name_skips_fallback :
    _get_field [("dist_cm", Value.int 42)] (Option.some "d") _DISTANCE_FALLBACK_FIELDS
      = Value.none ∧
    getFieldSpecC7 [("dist_cm", Value.int 42)] (Option.some "d") _DISTANCE_FALLBACK_FIELDS
      = Value.int 42 := by decide

/-- C7 (amended): a configured non-empty field name is used verbatim — the
record's value under that name is returned even when null/missing, without
consulting the fallback chain; only when no name is configured (or it is
empty) does resolution walk the fallback chain, returning the first
fallback name's non-null value, else null (which the parsers turn into the
type default). -/
theorem c7_field_resolution :
    ∀ (data : Record) (fallbacks : List String),
    (∀ fn : String, fn ≠ "" →
      _get_field data (Option.some fn) fallbacks = pyGet data fn) ∧
    (_get_field data Option.none fallbacks =
      (match fallbacks.find? (fun fb => !(pyGet data fb == Value.none)) with
       | Option.some fb => pyGet data fb
       | Option.none => Value.none)) ∧
    (_get_field data (Option.some "") fallbacks =
      (match fallbacks.find? (fun fb => !(pyGet data fb == Value.none)) with
       | Option.some fb => pyGet data fb
       | Option.none => Value.none)) := by
  intro data fallbacks
  refine ⟨fun fn hfn => ?_, ?_, ?_⟩
  · simp [_get_field, truthyStr, hfn]
  · simp [_get_field, truthyStr, fallbackChain_eq_find?]
  · simp [_get_field, truthyStr, fallbackChain_eq_find?]

/-- C7 witness: with configured name `"d"` absent from the record, the
resolved value is `data.get("d")` (null), not the fallback value. -/
theorem c7_field_resolution_witness :
    _get_field [("dist_cm", Value.int 7)] (Option.some "d") ["dist_cm"]
      = pyGet [("dist_cm", Value.int 7)] "d" :=
  (c7_field_resolution [("dist_cm", Value.int 7)] ["dist_cm"]).1 "d" (by decide)

/-- C8: the `epoch_auto` millisecond boundary.  For every value, `epoch_auto`
divides by 1000 exactly when the value exceeds 1e11; `epoch_ms` always
divides; `epoch_s` never does; 150000000000 is read as milliseconds and
1700000000 as seconds. -/
theorem c8_epoch_auto_threshold :
    (∀ v : Rat, epochAdjust "epoch_auto" v = if v > 100000000000 then v / 1000 else v) ∧
    (∀ v : Rat, epochAdjust "epoch_ms" v = v / 1000) ∧
    (∀ v : Rat, epochAdjust "epoch_s" v = v) ∧
    parseTsCore (Value.int 150000000000) "epoch_auto"
      = TsParse.ok (PyDateTime.fromEpoch 150000000) ∧
    parseTsCore (Value.int 1700000000) "epoch_auto"
      = TsParse.ok (PyDateTime.fromEpoch 1700000000) := by
  refine ⟨fun v => rfl, fun v => rfl, fun v => rfl, ?_, by decide⟩
  simp [parseTsCore, pyFloat, epochAdjust, fromtimestampOk, fromtimestampOverflow]
  norm_num

/-- C9 counterexample: under encoding `"string"` a numeric-typed raw value
is cast directly (`int(-15) = -15`) instead of having the first digit run
extracted from its string form (which would give 15) — refuting the claim
that `"string"` always extracts digits from the value's string form. -/
theorem c9_numeric_input_bypasses_digit_extraction :
    _parse_distance (Value.int (-15)) "string" = -15 ∧
    pyStr (Value.int (-15)) = "-15" ∧
    extractDigits "-15" = 15 := by decide

/-- C9 (amended): distance parsing contract.  `numeric` truncates
`float(raw)` toward zero (0 on conversion failure); `string` casts
numeric-typed values directly to int and digit-extracts only non-numeric
values' string form; `auto` dispatches on the runtime type; a null value or
a digit-free string parses to 0; and the documented concrete cases hold
(`42.9` to 42, `"R0231"` to 231, null to 0). -/
theorem c9_distance_parsing :
    ∀ (n : Int) (q : Rat) (s : String),
    (_parse_distance (Value.int n) "numeric" = n ∧
     _parse_distance (Value.float q) "numeric" = truncRat q ∧
     _parse_distance (Value.str s) "numeric" =
       (match parseFloatStr s with
        | Option.some x => truncRat x
        | Option.none => 0) ∧
     _parse_distance (Value.int n) "string" = n ∧
     _parse_distance (Value.float q) "string" = truncRat q ∧
     _parse_distance (Value.str s) "string" = extractDigits s ∧
     _parse_distance (Value.int n) "auto" = n ∧
     _parse_distance (Value.float q) "auto" = truncRat q ∧
     _parse_distance (Value.str s) "auto" = extractDigits s ∧
     (∀ enc : String, _parse_distance Value.none enc = 0) ∧
     _parse_distance (Value.float (429/10)) "numeric" = 42 ∧
     _parse_distance (Value.str "R0231") "string" = 231 ∧
     _parse_distance Value.none "auto" = 0) ∧
    ((s.toList.all fun c => !c.isDigit) = true →
      _parse_distance (Value.str s) "string" = 0 ∧
      _parse_distance (Value.str s) "auto" = 0) := by
  intro n q s
  constructor
  · refine ⟨by simp [_parse_distance, pyFloat, truncRat_intCast], rfl, ?_, rfl, rfl, rfl,
      rfl, rfl, rfl, fun enc => rfl, ?_, by decide, rfl⟩
    · cases hps : parseFloatStr s <;> simp [_parse_distance, pyFloat, hps]
    · show truncRat (429/10) = 42
      norm_num [truncRat]
      decide
  · intro h
    constructor
    · show extractDigits (pyStr (Value.str s)) = 0
      simpa [pyStr] using extractDigits_eq_zero s h
    · show extractDigits s = 0
      exact extractDigits_eq_zero s h

/-- C9 witness: a digit-free string parses to 0 under both `"string"` and
`"auto"` encodings. -/
theorem c9_distance_parsing_witness :
    _parse_distance (Value.str "xyz") "string" = 0 ∧
    _parse_distance (Value.str "xyz") "auto" = 0 :=
  (c9_distance_parsing 0 0 "xyz").2 (by decide)

/-- C10: string-typed distance values parse to non-negative integers under
encodings `"string"` and `"auto"` — digit extraction drops a leading minus
(`"-15"` parses to 15), digit-free strings parse to 0 — and a negative
parsed distance implies the input was of numeric runtime type. -/
theorem c10_string_distance_nonnegative :
    ∀ (s : String) (v : Value),
    (0 ≤ _parse_distance (Value.str s) "string" ∧
     0 ≤ _parse_distance (Value.str s) "auto" ∧
     _parse_distance (Value.str "-15") "string" = 15 ∧
     _parse_distance (Value.str "-15") "auto" = 15) ∧
    ((s.toList.all fun c => !c.isDigit) = true →
      _parse_distance (Value.str s) "string" = 0 ∧
      _parse_distance (Value.str s) "auto" = 0) ∧
    (_parse_distance v "string" < 0 → isNumericValue v) ∧
    (_parse_distance v "auto" < 0 → isNumericValue v) := by
  intro s v
  refine ⟨⟨?_, ?_, by decide, by decide⟩, ?_, ?_, ?_⟩
  · show 0 ≤ extractDigits (pyStr (Value.str s))
    simpa [pyStr] using extractDigits_nonneg s
  · show 0 ≤ extractDigits s
    exact extractDigits_nonneg s
  · intro h
    exact ⟨by simpa [pyStr] using extractDigits_eq_zero s h, extractDigits_eq_zero s h⟩
  · intro h
    cases v with
    | none => simp [_parse_distance] at h
    | int m => trivial
    | float q => trivial
    | str s2 =>
      exact absurd h (not_lt.mpr (by simpa [pyStr] using extractDigits_nonneg s2))
  · intro h
    cases v with
    | none => simp [_parse_distance] at h
    | int m => trivial
    | float q => trivial
    | str s2 => exact absurd h (not_lt.mpr (extractDigits_nonneg s2))

/-- C10 witness: the digit-free string `"zz"` parses to 0 under both
encodings, and a negative result at input `-3` certifies a numeric input. -/
theorem c10_string_distance_witness :
    (_parse_distance (Value.str "zz") "string" = 0 ∧
     _parse_distance (Value.str "zz") "auto" = 0) ∧
    isNumericValue (Value.int (-3)) :=
  ⟨(c10_string_distance_nonnegative "zz" (Value.int (-3))).2.1 (by decide),
   (c10_string_distance_nonnegative "zz" (Value.int (-3))).2.2.1 (by decide)⟩
